import Mathlib

/-!
Verification of the stage-coordination and status-telemetry behaviour of the
three GitHub Action entry points of this repository:
`src/init-action.ts`, `src/autobuild-action.ts` and `src/analyze-action.ts`.

Each `run` function is embedded as a pure interpreter over an explicit
environment record.  The environment fixes, for every external call the code
makes, the outcome that call would have (whether the "starting" status report
was accepted by the telemetry sink, whether the persisted config was found,
which sub-steps raise and with which error, the values of the action inputs
that the control flow reads).  The interpreter returns the ordered list of
observable events of the invocation: the "starting" status report, each unit
of stage work that is started, each `core.setFailed` call (the process is
marked failed, i.e. a non-zero exit code), and each completed status report
together with the status, cause, failing language and TRAP-telemetry fields
it carries.

Functions of this repository that the entry points call but whose sources are
not part of the analysed tree (`status-report.ts`, `analyze.ts`,
`trap-caching.ts`) are modelled from the specification; each such definition
carries a doc comment starting with "Modelled from the spec:".
-/

/-- Terminal status carried by a completed status report, as in the
`ActionStatus` enumeration used by `getActionsStatus`. -/
inductive Status where
  | success
  | failure
  | userError
  | aborted
deriving DecidableEq, Repr

/-- An error value: whether it is a `UserError` (the distinguished
misconfiguration subtype of `util.ts`) and its message. -/
structure Err where
  isUser : Bool
  msg : String
deriving DecidableEq, Repr

/-- The slice of the persisted `Config` that the entry points' control flow
reads: the ordered list of selected languages. -/
structure Config where
  languages : List String
deriving DecidableEq, Repr

/-- The per-language statistics object carried by a `CodeQLAnalysisError`
(`QueriesStatusReport` in `analyze.ts`): the language whose analysis failed,
if any, and the languages whose queries completed. -/
structure QueriesStats where
  analyzeFailureLanguage : Option String
  okLanguages : List String
deriving DecidableEq, Repr

/-- Observable events of one stage invocation, in program order. -/
inductive Ev where
  /-- The "starting" status report was sent to the telemetry sink. -/
  | reportStarting
  /-- A unit of stage work was started (named after the sub-step). -/
  | work (name : String)
  /-- The call `core.setFailed` happened with the given message: the process is
  marked failed and will exit non-zero. -/
  | setFailed (msg : String)
  /-- A completed status report was sent, carrying a terminal status, an
  optional cause message, an optional failing language, and whether the
  TRAP-cache-upload telemetry fields were attached. -/
  | reportCompleted (status : Status) (cause : Option String)
      (failLang : Option String) (trapFields : Bool)
deriving DecidableEq, Repr

/-- The fixed message thrown by `analyze-action.ts` and `autobuild-action.ts`
when `getConfig` returns `undefined`. -/
def configMissingMsg : String :=
  "Config file could not be found at expected location. Has the 'init' action been called?"

/-- The fixed user-facing fragment the Missing-Config contract promises. -/
def initActionCalledText : String := "Has the 'init' action been called?"

/-- Message of the `UserError` thrown by `analyze-action.ts` when
`hasBadExpectErrorInput()` holds. -/
def expectErrorForkMsg : String :=
  "`expect-error` input parameter is for internal use only. It should only be set by codeql-action or a fork."

/-- Message passed to `core.setFailed` by `analyze-action.ts` when
`expect-error` was `true` but the run raised no error. -/
def expectErrorNotThrownMsg : String :=
  "expect-error input was set to true but no error was thrown."

/-- Text prepended by `autobuild-action.ts` to the error message it passes to
`core.setFailed`. -/
def autobuildFailText : String :=
  "We were unable to automatically build your code. Please replace the call to the autobuild action with your custom build steps. "

/-- String `s` contains `pat` as a contiguous substring. -/
def containsText (s pat : String) : Prop := ∃ a b, s = a ++ (pat ++ b)

/-- Modelled from the spec: `getActionsStatus` of `status-report.ts` (not
under the analysed sources), the Outcome Classifier.  A `UserError` is tagged
`user-error`; any other error, or a recorded per-language failure, surfaces
as `failure`; otherwise the stage succeeded. -/
def getActionsStatus (error : Option Err) (otherFailureCause : Option String) : Status :=
  match error, otherFailureCause with
  | some e, _ => if e.isUser then Status.userError else Status.failure
  | none, some _ => Status.failure
  | none, none => Status.success

/-- Statuses that make the coordinator mark the job failed. -/
def statusBad : Status → Bool
  | Status.failure => true
  | Status.userError => true
  | Status.aborted => true
  | Status.success => false

/-- The TRAP file extensions recognised by `doesGoExtractionOutputExist` in
`analyze-action.ts`. -/
def trapFileExtensions : List String :=
  [".trap", ".trap.gz", ".trap.br", ".trap.tar.gz", ".trap.tar.br", ".trap.tar"]

/-- The filesystem and environment facts read by the legacy-Go-workflow
detection in `analyze-action.ts`. -/
structure GoEnv where
  /-- Value of `config.languages`. -/
  languages : List String
  /-- Value of the `CODEQL_ACTION_DID_AUTOBUILD_GOLANG` environment variable. -/
  didAutobuildGolang : Option String
  /-- Result of `dbIsFinalized(config, Language.go, logger)`. -/
  goDbFinalized : Bool
  /-- Whether the `trap/go` directory under the Go database exists. -/
  goTrapDirExists : Bool
  /-- The file names in that directory. -/
  goTrapDirFiles : List String
deriving DecidableEq, Repr

/-- Function `doesGoExtractionOutputExist` of `analyze-action.ts`: the trap directory
exists and holds at least one file whose name ends with a TRAP extension
(`fileName.endsWith(ext)` is mirrored as a character-list suffix test). -/
def doesGoExtractionOutputExist (e : GoEnv) : Bool :=
  e.goTrapDirExists &&
    e.goTrapDirFiles.any fun fileName =>
      trapFileExtensions.any fun ext => ext.data.isSuffixOf fileName.data

/-- Function `runAutobuildIfLegacyGoWorkflow` of `analyze-action.ts`, with `true`
meaning the function reaches `runAutobuild(Language.go, ...)`; each earlier
`return` yields `false`, in the source's order of checks. -/
def runAutobuildIfLegacyGoWorkflow (e : GoEnv) : Bool :=
  if !(e.languages.contains "go") then false
  else if e.didAutobuildGolang == some "true" then false
  else if e.goDbFinalized then false
  else if doesGoExtractionOutputExist e then false
  else true

/-- Outcome of the `runQueries` call in `analyze-action.ts`: it returns a
statistics object, raises a `CodeQLAnalysisError` carrying statistics, or
raises some other error.  A normal return carries no failing language,
because the per-language failure path always raises (see
`runQueriesModelled`). -/
inductive QueriesResult where
  | ok (okLanguages : List String)
  | analysisError (stats : QueriesStats) (msg : String)
  | otherError (e : Err)
deriving DecidableEq, Repr

/-- Message of the modelled `CodeQLAnalysisError`. -/
def analysisErrText : String := "Error running analysis"

/-- Modelled from the spec: the per-language loop of `runQueries`
(`analyze.ts`, not under the analysed sources).  Languages are processed one
at a time in the configured order; a language whose query run fails is
recorded as the failing language and does not stop the remaining languages.
Returns the accumulated statistics and the list of languages actually
processed. -/
def runQueriesLoop : List (String × Bool) → QueriesStats → QueriesStats × List String
  | [], acc => (acc, [])
  | (lang, ok) :: rest, acc =>
    let acc2 :=
      if ok then { acc with okLanguages := acc.okLanguages ++ [lang] }
      else
        match acc.analyzeFailureLanguage with
        | some l0 => { acc with analyzeFailureLanguage := some l0 }
        | none => { acc with analyzeFailureLanguage := some lang }
    let r := runQueriesLoop rest acc2
    (r.1, lang :: r.2)

/-- Modelled from the spec: `runQueries` (`analyze.ts`, not under the
analysed sources).  After all languages are processed, a recorded failure
surfaces as a raised `CodeQLAnalysisError` carrying the statistics; otherwise
the statistics are returned. -/
def runQueriesModelled (outcomes : List (String × Bool)) : QueriesResult :=
  let r := runQueriesLoop outcomes ⟨none, []⟩
  match r.1.analyzeFailureLanguage with
  | some _ => QueriesResult.analysisError r.1 analysisErrText
  | none => QueriesResult.ok r.1.okLanguages

/-- The languages `runQueries` processes for a given list of per-language
outcomes. -/
def runQueriesProcessed (outcomes : List (String × Bool)) : List String :=
  (runQueriesLoop outcomes ⟨none, []⟩).2

/-- Modelled from the spec: `uploadTrapCaches` (`trap-caching.ts`, not under
the analysed sources).  The upload is fire-and-forget: an internal failure is
caught and only degrades the telemetry it would have fed (no caches are
recorded as uploaded); the call never raises.  It returns whether caches were
uploaded. -/
def uploadTrapCaches (internalFailure : Bool) (wouldUpload : Bool) : Bool :=
  if internalFailure then false else wouldUpload

/-- Environment of one invocation of the Finalize+Query (`analyze`) stage:
the outcome of every external call its control flow depends on.  The
`completedDelivered` field is the delivery outcome of completed status
reports; the modelled `sendStatusReport` never raises (spec: telemetry
delivery failures are caught, logged and never re-thrown), and the source
discards the return value of every completed-report call. -/
structure AnalyzeEnv where
  /-- Return value of the "starting" `sendStatusReport` call (`false` is the
  duplicate-start signal). -/
  startingDelivered : Bool
  /-- Delivery outcome of completed status reports (never consulted). -/
  completedDelivered : Bool
  /-- Result of `getConfig` on the temporary directory. -/
  config : Option Config
  /-- Value of the `expect-error` input. -/
  expectError : Option String
  /-- Value of `util.isInTestMode()`. -/
  testMode : Bool
  /-- Value of the `CODEQL_ACTION_DID_AUTOBUILD_GOLANG` environment variable. -/
  didAutobuildGolang : Option String
  /-- Whether the Go database is already finalized. -/
  goDbFinalized : Bool
  /-- Whether the Go trap directory exists. -/
  goTrapDirExists : Bool
  /-- File names in the Go trap directory. -/
  goTrapDirFiles : List String
  /-- Error raised by `runAutobuild(Language.go, ...)`, when it is invoked. -/
  goAutobuildErr : Option Err
  /-- Error raised by `runFinalize`. -/
  finalizeErr : Option Err
  /-- Whether the `skip-queries` input is `"true"`. -/
  skipQueries : Bool
  /-- Outcome of `runQueries`, when it is invoked. -/
  queriesResult : QueriesResult
  /-- Value of the `cleanup-level` input. -/
  cleanupLevel : Option String
  /-- Error raised by `runCleanup`, when it is invoked. -/
  cleanupErr : Option Err
  /-- Whether `getUploadValue` of the `upload` input is `"always"`. -/
  uploadAlways : Bool
  /-- Error raised by `uploadFromActions`, when it is invoked. -/
  uploadErr : Option Err
  /-- Error raised by `uploadDatabases`. -/
  uploadDatabasesErr : Option Err
  /-- Whether the TRAP-cache upload fails internally. -/
  trapUploadFails : Bool
  /-- Whether the TRAP-cache upload would upload caches when it succeeds. -/
  trapWouldUpload : Bool
  /-- Whether the `wait-for-processing` input is `"true"`. -/
  waitForProcessingInput : Bool
  /-- Error raised by `waitForProcessing`, when it is invoked. -/
  waitErr : Option Err
deriving DecidableEq, Repr

/-- Function `hasBadExpectErrorInput` of `analyze-action.ts`: the `expect-error` input
is not `"false"` while the process is not in test mode. -/
def hasBadExpectErrorInput (env : AnalyzeEnv) : Bool :=
  env.expectError != some "false" && !env.testMode

/-- The `catch` block of `analyze-action.ts`'s `run` (lines 334-368): mark
the process failed unless the expect-error facility is engaged, then send the
completed report built by the local `sendStatusReport` helper, whose status
comes from `getActionsStatus(error, stats?.analyze_failure_language)`; the
TRAP telemetry fields are attached only when a config was loaded and TRAP
caches were uploaded. -/
def analyzeCatch (env : AnalyzeEnv) (e : Err) (stats : Option QueriesStats)
    (configPresent : Bool) (didUploadTrapCaches : Bool) : List Ev :=
  (if env.expectError != some "true" || hasBadExpectErrorInput env then
      [Ev.setFailed e.msg]
    else []) ++
    [Ev.reportCompleted
      (getActionsStatus (some e) (stats.bind fun s => s.analyzeFailureLanguage))
      (some e.msg) (stats.bind fun s => s.analyzeFailureLanguage)
      (configPresent && didUploadTrapCaches)]

/-- End of the `analyze` try block plus the final completed report
(lines 327-332 and 371-407): the deliberate `setFailed` when `expect-error`
is `"true"` yet nothing was raised, then the completed report with
`getActionsStatus(undefined, stats?.analyze_failure_language)`. -/
def analyzeFinish (env : AnalyzeEnv) (runStats : Option QueriesStats)
    (didUploadTrapCaches : Bool) : List Ev :=
  (if env.expectError == some "true" then [Ev.setFailed expectErrorNotThrownMsg] else []) ++
    [Ev.reportCompleted
      (getActionsStatus none (runStats.bind fun s => s.analyzeFailureLanguage)) none
      (runStats.bind fun s => s.analyzeFailureLanguage) didUploadTrapCaches]

/-- The wait-for-processing step (lines 314-326): skipped in test mode, run
only when an upload happened and the input asks for it. -/
def analyzeWait (env : AnalyzeEnv) (runStats : Option QueriesStats)
    (uploadHappened : Bool) (didUploadTrapCaches : Bool) : List Ev :=
  if !env.testMode && (uploadHappened && env.waitForProcessingInput) then
    Ev.work "waitForProcessing" ::
      match env.waitErr with
      | some e => analyzeCatch env e none true didUploadTrapCaches
      | none => analyzeFinish env runStats didUploadTrapCaches
  else analyzeFinish env runStats didUploadTrapCaches

/-- The TRAP-cache upload step (lines 308-312). -/
def analyzeTrap (env : AnalyzeEnv) (runStats : Option QueriesStats)
    (uploadHappened : Bool) : List Ev :=
  Ev.work "uploadTrapCaches" ::
    analyzeWait env runStats uploadHappened
      (uploadTrapCaches env.trapUploadFails env.trapWouldUpload)

/-- The database-bundle upload step (line 306). -/
def analyzeUploadDatabases (env : AnalyzeEnv) (runStats : Option QueriesStats)
    (uploadHappened : Bool) : List Ev :=
  Ev.work "uploadDatabases" ::
    match env.uploadDatabasesErr with
    | some e => analyzeCatch env e none true false
    | none => analyzeTrap env runStats uploadHappened

/-- The results upload step (lines 291-303): only when queries ran and the
upload input resolves to `always`. -/
def analyzeUpload (env : AnalyzeEnv) (runStats : Option QueriesStats) : List Ev :=
  if runStats.isSome && env.uploadAlways then
    Ev.work "upload" ::
      match env.uploadErr with
      | some e => analyzeCatch env e none true false
      | none => analyzeUploadDatabases env runStats true
  else analyzeUploadDatabases env runStats false

/-- The cleanup step (lines 277-283): run unless `cleanup-level` is
`"none"`. -/
def analyzeCleanup (env : AnalyzeEnv) (runStats : Option QueriesStats) : List Ev :=
  if env.cleanupLevel != some "none" then
    Ev.work "cleanup" ::
      match env.cleanupErr with
      | some e => analyzeCatch env e none true false
      | none => analyzeUpload env runStats
  else analyzeUpload env runStats

/-- The query step (lines 264-275): run unless `skip-queries` is `"true"`; a
`CodeQLAnalysisError` reaches the catch block together with its statistics
object, any other error without one. -/
def analyzeQueries (env : AnalyzeEnv) : List Ev :=
  if !env.skipQueries then
    Ev.work "queries" ::
      match env.queriesResult with
      | QueriesResult.ok okLanguages =>
          analyzeCleanup env (some ⟨none, okLanguages⟩)
      | QueriesResult.analysisError stats m =>
          analyzeCatch env ⟨false, m⟩ (some stats) true false
      | QueriesResult.otherError e => analyzeCatch env e none true false
  else analyzeCleanup env none

/-- The database finalization step (lines 255-262). -/
def analyzeFinalizeStep (env : AnalyzeEnv) : List Ev :=
  Ev.work "finalize" ::
    match env.finalizeErr with
    | some e => analyzeCatch env e none true false
    | none => analyzeQueries env

/-- The legacy-Go-workflow autobuild step (line 253): the helper decides
whether `runAutobuild` is invoked for Go; only an invoked autobuild can
raise. -/
def analyzeGoStep (env : AnalyzeEnv) (cfg : Config) : List Ev :=
  let goRuns := runAutobuildIfLegacyGoWorkflow
    { languages := cfg.languages, didAutobuildGolang := env.didAutobuildGolang,
      goDbFinalized := env.goDbFinalized, goTrapDirExists := env.goTrapDirExists,
      goTrapDirFiles := env.goTrapDirFiles }
  (if goRuns then [Ev.work "goAutobuild"] else []) ++
    match (if goRuns then env.goAutobuildErr else none) with
    | some e => analyzeCatch env e none true false
    | none => analyzeFinalizeStep env

/-- What follows the "starting" report in `run` of `analyze-action.ts`: a
`false` return of the starting report (the duplicate-start signal) exits the
stage at once; a missing config raises the fixed missing-config error; a bad
`expect-error` input raises a `UserError`; then the work steps run in source
order, any raise reaching the catch block. -/
def analyzeTail (env : AnalyzeEnv) : List Ev :=
  if !env.startingDelivered then []
  else
    match env.config with
    | none => analyzeCatch env ⟨false, configMissingMsg⟩ none false false
    | some cfg =>
      if hasBadExpectErrorInput env then
        analyzeCatch env ⟨true, expectErrorForkMsg⟩ none true false
      else analyzeGoStep env cfg

/-- Function `run` of `analyze-action.ts` (lines 178-408): the "starting" report is
always sent, then `analyzeTail` follows. -/
def analyzeRun (env : AnalyzeEnv) : List Ev :=
  Ev.reportStarting :: analyzeTail env

/-- Environment of one invocation of the Init stage. -/
structure InitEnv where
  /-- Return value of the "starting" `sendStatusReport` call. -/
  startingDelivered : Bool
  /-- Delivery outcome of completed status reports (never consulted). -/
  completedDelivered : Bool
  /-- Error raised inside the first try block (tool setup, workflow
  validation, config resolution), if any. -/
  setupErr : Option Err
  /-- Error raised inside the second try block (tracer init and
  environment wiring), if any. -/
  mainErr : Option Err
deriving DecidableEq, Repr

/-- What follows the "starting" report in `run` of `init-action.ts`: a
duplicate-start signal exits at once; an error in the first try block is
reported with status `user-error` or `aborted` (lines 303-317); an error in
the second with `getActionsStatus(error)`; both mark the process failed
first.  Success sends the completed report with no error. -/
def initTail (env : InitEnv) : List Ev :=
  if !env.startingDelivered then []
  else
    Ev.work "initSetup" ::
      match env.setupErr with
      | some e =>
          [Ev.setFailed e.msg,
           Ev.reportCompleted (if e.isUser then Status.userError else Status.aborted)
             (some e.msg) none false]
      | none =>
          Ev.work "runInit" ::
            match env.mainErr with
            | some e =>
                [Ev.setFailed e.msg,
                 Ev.reportCompleted (getActionsStatus (some e) none) (some e.msg) none false]
            | none => [Ev.reportCompleted (getActionsStatus none none) none none false]

/-- Function `run` of `init-action.ts` (lines 185-468): the "starting" report is
always sent, then `initTail` follows. -/
def initRun (env : InitEnv) : List Ev :=
  Ev.reportStarting :: initTail env

/-- Function `getTrapCachingEnabled` of `init-action.ts` (lines 470-480), as a
function of the `trap-caching` input and `isHostedRunner()`. -/
def getTrapCachingEnabled (trapCaching : Option String) (hostedRunner : Bool) : Bool :=
  match trapCaching with
  | some v => v == "true"
  | none => if !hostedRunner then false else true

/-- Environment of one invocation of the Autobuild stage. -/
structure AutobuildEnv where
  /-- Return value of the "starting" `sendStatusReport` call. -/
  startingDelivered : Bool
  /-- Delivery outcome of completed status reports (never consulted). -/
  completedDelivered : Bool
  /-- Result of `getConfig` on the temporary directory. -/
  config : Option Config
  /-- Error raised by `determineAutobuildLanguages`, if any. -/
  determineErr : Option Err
  /-- Result of `determineAutobuildLanguages`, paired with the outcome each
  language's `runAutobuild` call would have. -/
  autobuildLanguages : Option (List (String × Option Err))
deriving DecidableEq, Repr

/-- The per-language loop of `autobuild-action.ts` (lines 97-100) followed by
the completed report: the first failing language aborts the loop and reaches
the catch block, which marks the process failed with the prefixed message and
reports the failing language; an exhausted loop reports success. -/
def autobuildLoop : List (String × Option Err) → List Ev
  | [] => [Ev.reportCompleted (getActionsStatus none none) none none false]
  | (lang, none) :: rest => Ev.work ("autobuild-" ++ lang) :: autobuildLoop rest
  | (lang, some e) :: _ =>
      [Ev.work ("autobuild-" ++ lang),
       Ev.setFailed (autobuildFailText ++ e.msg),
       Ev.reportCompleted (getActionsStatus (some e) (some lang)) (some e.msg) (some lang) false]

/-- What follows the "starting" report in `run` of `autobuild-action.ts`: a
duplicate-start signal exits at once; a missing config or a failing language
determination reaches the catch block with no current language; otherwise
the languages are built in order. -/
def autobuildTail (env : AutobuildEnv) : List Ev :=
  if !env.startingDelivered then []
  else
    match env.config with
    | none =>
        [Ev.setFailed (autobuildFailText ++ configMissingMsg),
         Ev.reportCompleted (getActionsStatus (some ⟨false, configMissingMsg⟩) none)
           (some configMissingMsg) none false]
    | some _ =>
        match env.determineErr with
        | some e =>
            [Ev.setFailed (autobuildFailText ++ e.msg),
             Ev.reportCompleted (getActionsStatus (some e) none) (some e.msg) none false]
        | none =>
            match env.autobuildLanguages with
            | none => [Ev.reportCompleted (getActionsStatus none none) none none false]
            | some outs => autobuildLoop outs

/-- Function `run` of `autobuild-action.ts` (lines 59-118): the "starting" report is
always sent, then `autobuildTail` follows. -/
def autobuildRun (env : AutobuildEnv) : List Ev :=
  Ev.reportStarting :: autobuildTail env

/-- Event classifiers and trace projections. -/
def isStartingEv : Ev → Bool
  | Ev.reportStarting => true
  | _ => false

def isCompletedEv : Ev → Bool
  | Ev.reportCompleted _ _ _ _ => true
  | _ => false

def isSetFailedEv : Ev → Bool
  | Ev.setFailed _ => true
  | _ => false

def notCompletedEv (e : Ev) : Bool := !(isCompletedEv e)

def notStartingEv (e : Ev) : Bool := !(isStartingEv e)

def startingCount (t : List Ev) : Nat := t.countP isStartingEv

def completedCount (t : List Ev) : Nat := t.countP isCompletedEv

def completedStatusList (t : List Ev) : List Status :=
  t.filterMap fun e =>
    match e with
    | Ev.reportCompleted s _ _ _ => some s
    | _ => none

def completedReports (t : List Ev) : List (Status × Option String × Option String × Bool) :=
  t.filterMap fun e =>
    match e with
    | Ev.reportCompleted s c f d => some (s, c, f, d)
    | _ => none

def completedCauses (t : List Ev) : List (Option String) :=
  t.filterMap fun e =>
    match e with
    | Ev.reportCompleted _ c _ _ => some c
    | _ => none

def setFailedMsgs (t : List Ev) : List String :=
  t.filterMap fun e =>
    match e with
    | Ev.setFailed m => some m
    | _ => none

def workNames (t : List Ev) : List String :=
  t.filterMap fun e =>
    match e with
    | Ev.work n => some n
    | _ => none

/-- Erase the TRAP-cache-upload telemetry fields of every completed report in
a trace; everything except that telemetry is kept. -/
def stripTrapFields (t : List Ev) : List Ev :=
  t.map fun e =>
    match e with
    | Ev.reportCompleted s c f _ => Ev.reportCompleted s c f false
    | x => x

/-- The exit-code discipline of a trace: a completed report with a bad status
is preceded by a `core.setFailed` call, and a trace whose completed report
has a good status contains no `core.setFailed` call at all. -/
def exitCodeMatches (t : List Ev) : Bool :=
  (completedStatusList t).all fun s =>
    if statusBad s then (t.takeWhile notCompletedEv).any isSetFailedEv
    else !(t.any isSetFailedEv)

/-- Shape of the part of a stage trace that follows a delivered "starting"
report: a prefix holding no starting and no completed report, closed by
exactly one completed report. -/
def stageTail (t : List Ev) : Prop :=
  ∃ pre s c f d, t = pre ++ [Ev.reportCompleted s c f d] ∧
    pre.all notCompletedEv = true ∧ pre.all notStartingEv = true

/-- Exit-code-disciplined tail: as `stageTail`, and in addition a bad
terminal status is preceded by a `core.setFailed` call while a good one is
accompanied by none. -/
def okTailB (t : List Ev) : Prop :=
  ∃ pre s c f d, t = pre ++ [Ev.reportCompleted s c f d] ∧
    pre.all notCompletedEv = true ∧
    (statusBad s = true → pre.any isSetFailedEv = true) ∧
    (statusBad s = false → pre.any isSetFailedEv = false)

/-- A trace of a fully succeeding stage: the process is never marked failed
and the single completed report carries status `success`. -/
def successTrace (t : List Ev) : Prop :=
  t.any isSetFailedEv = false ∧ completedStatusList t = [Status.success]

theorem stageTail_consWork (n : String) (t : List Ev) (h : stageTail t) :
    stageTail (Ev.work n :: t) := by
  obtain ⟨pre, s, c, f, d, rfl, h1, h2⟩ := h
  exact ⟨Ev.work n :: pre, s, c, f, d, rfl,
    by simp_all [notCompletedEv, isCompletedEv],
    by simp_all [notStartingEv, isStartingEv]⟩

theorem stageTail_analyzeCatch (env : AnalyzeEnv) (e : Err) (st : Option QueriesStats)
    (cp du : Bool) : stageTail (analyzeCatch env e st cp du) := by
  unfold analyzeCatch
  split
  · exact ⟨[Ev.setFailed e.msg], _, _, _, _, rfl,
      by simp [notCompletedEv, isCompletedEv],
      by simp [notStartingEv, isStartingEv]⟩
  · exact ⟨[], _, _, _, _, rfl, rfl, rfl⟩

theorem stageTail_analyzeFinish (env : AnalyzeEnv) (rs : Option QueriesStats) (du : Bool) :
    stageTail (analyzeFinish env rs du) := by
  unfold analyzeFinish
  split
  · exact ⟨[Ev.setFailed expectErrorNotThrownMsg], _, _, _, _, rfl,
      by simp [notCompletedEv, isCompletedEv],
      by simp [notStartingEv, isStartingEv]⟩
  · exact ⟨[], _, _, _, _, rfl, rfl, rfl⟩

theorem stageTail_analyzeWait (env : AnalyzeEnv) (rs : Option QueriesStats) (uh du : Bool) :
    stageTail (analyzeWait env rs uh du) := by
  unfold analyzeWait
  split
  · cases h : env.waitErr with
    | some e => simpa [h] using stageTail_consWork _ _ (stageTail_analyzeCatch env e none true du)
    | none => simpa [h] using stageTail_consWork _ _ (stageTail_analyzeFinish env rs du)
  · exact stageTail_analyzeFinish env rs du

theorem stageTail_analyzeTrap (env : AnalyzeEnv) (rs : Option QueriesStats) (uh : Bool) :
    stageTail (analyzeTrap env rs uh) :=
  stageTail_consWork _ _ (stageTail_analyzeWait env rs uh _)

theorem stageTail_analyzeUploadDatabases (env : AnalyzeEnv) (rs : Option QueriesStats)
    (uh : Bool) : stageTail (analyzeUploadDatabases env rs uh) := by
  unfold analyzeUploadDatabases
  cases h : env.uploadDatabasesErr with
  | some e => exact stageTail_consWork _ _ (stageTail_analyzeCatch env e none true false)
  | none => exact stageTail_consWork _ _ (stageTail_analyzeTrap env rs uh)

theorem stageTail_analyzeUpload (env : AnalyzeEnv) (rs : Option QueriesStats) :
    stageTail (analyzeUpload env rs) := by
  unfold analyzeUpload
  split
  · cases h : env.uploadErr with
    | some e => exact stageTail_consWork _ _ (stageTail_analyzeCatch env e none true false)
    | none => exact stageTail_consWork _ _ (stageTail_analyzeUploadDatabases env rs true)
  · exact stageTail_analyzeUploadDatabases env rs false

theorem stageTail_analyzeCleanup (env : AnalyzeEnv) (rs : Option QueriesStats) :
    stageTail (analyzeCleanup env rs) := by
  unfold analyzeCleanup
  split
  · cases h : env.cleanupErr with
    | some e => exact stageTail_consWork _ _ (stageTail_analyzeCatch env e none true false)
    | none => exact stageTail_consWork _ _ (stageTail_analyzeUpload env rs)
  · exact stageTail_analyzeUpload env rs

theorem stageTail_analyzeQueries (env : AnalyzeEnv) : stageTail (analyzeQueries env) := by
  unfold analyzeQueries
  split
  · cases h : env.queriesResult with
    | ok okLanguages =>
        exact stageTail_consWork _ _ (stageTail_analyzeCleanup env (some ⟨none, okLanguages⟩))
    | analysisError stats m =>
        exact stageTail_consWork _ _ (stageTail_analyzeCatch env ⟨false, m⟩ (some stats) true false)
    | otherError e =>
        exact stageTail_consWork _ _ (stageTail_analyzeCatch env e none true false)
  · exact stageTail_analyzeCleanup env none

theorem stageTail_analyzeFinalizeStep (env : AnalyzeEnv) :
    stageTail (analyzeFinalizeStep env) := by
  unfold analyzeFinalizeStep
  cases h : env.finalizeErr with
  | some e => exact stageTail_consWork _ _ (stageTail_analyzeCatch env e none true false)
  | none => exact stageTail_consWork _ _ (stageTail_analyzeQueries env)

theorem stageTail_analyzeGoStep (env : AnalyzeEnv) (cfg : Config) :
    stageTail (analyzeGoStep env cfg) := by
  unfold analyzeGoStep
  cases hg : runAutobuildIfLegacyGoWorkflow
      { languages := cfg.languages, didAutobuildGolang := env.didAutobuildGolang,
        goDbFinalized := env.goDbFinalized, goTrapDirExists := env.goTrapDirExists,
        goTrapDirFiles := env.goTrapDirFiles } with
  | false => simpa [hg] using stageTail_analyzeFinalizeStep env
  | true =>
      cases h : env.goAutobuildErr with
      | some e =>
          simpa [hg, h] using
            stageTail_consWork _ _ (stageTail_analyzeCatch env e none true false)
      | none =>
          simpa [hg, h] using stageTail_consWork _ _ (stageTail_analyzeFinalizeStep env)

theorem stageTail_autobuildLoop (outs : List (String × Option Err)) :
    stageTail (autobuildLoop outs) := by
  induction outs with
  | nil => exact ⟨[], _, _, _, _, rfl, rfl, rfl⟩
  | cons p rest ih =>
      obtain ⟨lang, oe⟩ := p
      cases oe with
      | none => exact stageTail_consWork _ _ ih
      | some e =>
          exact ⟨[Ev.work ("autobuild-" ++ lang), Ev.setFailed (autobuildFailText ++ e.msg)],
            _, _, _, _, rfl,
            by simp [notCompletedEv, isCompletedEv],
            by simp [notStartingEv, isStartingEv]⟩

/-- C10: Init enables TRAP caching by this precedence: a supplied
`trap-caching` input decides alone (enabled exactly when it equals "true");
with no input, caching is enabled exactly on hosted runners. -/
theorem claim_c10_trap_caching_precedence :
    (∀ (v : String) (hosted : Bool), getTrapCachingEnabled (some v) hosted = (v == "true")) ∧
    (∀ hosted : Bool, getTrapCachingEnabled none hosted = hosted) := by
  refine ⟨fun v hosted => rfl, fun hosted => ?_⟩
  cases hosted <;> rfl

/-- C8: in Finalize+Query the Go autobuilder is invoked iff Go is among the
configured languages, `CODEQL_ACTION_DID_AUTOBUILD_GOLANG` is not "true", the
Go database is not already finalized, and no TRAP extraction output file
exists under the Go trap directory. -/
theorem claim_c8_go_autobuild_iff (e : GoEnv) :
    runAutobuildIfLegacyGoWorkflow e = true ↔
      ("go" ∈ e.languages ∧ e.didAutobuildGolang ≠ some "true" ∧
        e.goDbFinalized = false ∧ doesGoExtractionOutputExist e = false) := by
  unfold runAutobuildIfLegacyGoWorkflow
  cases h1 : e.languages.contains "go" <;>
    cases h2 : e.didAutobuildGolang == some "true" <;>
      cases h3 : e.goDbFinalized <;>
        cases h4 : doesGoExtractionOutputExist e <;>
          simp_all [beq_iff_eq]

/-- C2: a `false` return from the "starting" status report (the sink's
duplicate-start signal) makes each stage return immediately: the whole trace
is the starting report alone, so no stage work happens, no completed report
is emitted, and the process is not marked failed. -/
theorem claim_c2_duplicate_start_exit
    (envA : AnalyzeEnv) (envI : InitEnv) (envB : AutobuildEnv) :
    analyzeRun { envA with startingDelivered := false } = [Ev.reportStarting] ∧
    initRun { envI with startingDelivered := false } = [Ev.reportStarting] ∧
    autobuildRun { envB with startingDelivered := false } = [Ev.reportStarting] := by
  refine ⟨?_, ?_, ?_⟩
  · cases envA; rfl
  · cases envI; rfl
  · cases envB; rfl

/-- C1: when `getConfig` returns the distinguished not-initialized result,
both downstream stages fail with the fixed message that contains
"Has the 'init' action been called?": it is the cause of the completed report
and the message passed to `core.setFailed`. -/
theorem claim_c1_missing_config_message (envA : AnalyzeEnv) (envB : AutobuildEnv) :
    completedCauses (analyzeRun { envA with startingDelivered := true, config := none, expectError := some "false" }) = [some configMissingMsg] ∧
    setFailedMsgs (analyzeRun { envA with startingDelivered := true, config := none, expectError := some "false" }) = [configMissingMsg] ∧
    completedCauses (autobuildRun { envB with startingDelivered := true, config := none }) =
      [some configMissingMsg] ∧
    setFailedMsgs (autobuildRun { envB with startingDelivered := true, config := none }) =
      [autobuildFailText ++ configMissingMsg] ∧
    containsText configMissingMsg initActionCalledText := by
  refine ⟨?_, ?_, ?_, ?_,
    ⟨"Config file could not be found at expected location. ", "", rfl⟩⟩
  · cases envA; simp [analyzeRun, analyzeTail, analyzeCatch, completedCauses]
  · cases envA; simp [analyzeRun, analyzeTail, analyzeCatch, setFailedMsgs]
  · cases envB; simp [autobuildRun, autobuildTail, completedCauses]
  · cases envB; simp [autobuildRun, autobuildTail, setFailedMsgs]

theorem countP_zero_of_all_not (p : Ev → Bool) (l : List Ev)
    (h : l.all (fun e => !(p e)) = true) : l.countP p = 0 := by
  induction l with
  | nil => rfl
  | cons a l ih =>
      simp only [List.all_cons, Bool.and_eq_true] at h
      have hpa : p a = false := by
        cases hx : p a
        · rfl
        · rw [hx] at h; simp at h
      rw [List.countP_cons]
      simp [hpa, ih h.2]

theorem analyzeTail_cases (env : AnalyzeEnv) :
    analyzeTail env = [] ∨ stageTail (analyzeTail env) := by
  unfold analyzeTail
  cases hd : env.startingDelivered with
  | false => left; simp
  | true =>
      right
      cases hc : env.config with
      | none =>
          simpa [hc] using stageTail_analyzeCatch env ⟨false, configMissingMsg⟩ none false false
      | some cfg =>
          cases hb : hasBadExpectErrorInput env with
          | true =>
              simpa [hc, hb] using
                stageTail_analyzeCatch env ⟨true, expectErrorForkMsg⟩ none true false
          | false => simpa [hc, hb] using stageTail_analyzeGoStep env cfg

theorem initTail_cases (env : InitEnv) :
    initTail env = [] ∨ stageTail (initTail env) := by
  unfold initTail
  cases hd : env.startingDelivered with
  | false => left; simp
  | true =>
      right
      simp only [Bool.not_true, Bool.false_eq_true, if_false]
      cases hs : env.setupErr with
      | some e =>
          exact ⟨[Ev.work "initSetup", Ev.setFailed e.msg], _, _, _, _, rfl,
            by simp [notCompletedEv, isCompletedEv],
            by simp [notStartingEv, isStartingEv]⟩
      | none =>
          cases hm : env.mainErr with
          | some e =>
              exact ⟨[Ev.work "initSetup", Ev.work "runInit", Ev.setFailed e.msg],
                _, _, _, _, rfl,
                by simp [notCompletedEv, isCompletedEv],
                by simp [notStartingEv, isStartingEv]⟩
          | none =>
              exact ⟨[Ev.work "initSetup", Ev.work "runInit"], _, _, _, _, rfl,
                by simp [notCompletedEv, isCompletedEv],
                by simp [notStartingEv, isStartingEv]⟩

theorem autobuildTail_cases (env : AutobuildEnv) :
    autobuildTail env = [] ∨ stageTail (autobuildTail env) := by
  unfold autobuildTail
  cases hd : env.startingDelivered with
  | false => left; simp
  | true =>
      right
      simp only [Bool.not_true, Bool.false_eq_true, if_false]
      cases hc : env.config with
      | none =>
          exact ⟨[Ev.setFailed (autobuildFailText ++ configMissingMsg)], _, _, _, _, rfl,
            by simp [notCompletedEv, isCompletedEv],
            by simp [notStartingEv, isStartingEv]⟩
      | some cfg =>
          cases hs : env.determineErr with
          | some e =>
              exact ⟨[Ev.setFailed (autobuildFailText ++ e.msg)], _, _, _, _, rfl,
                by simp [notCompletedEv, isCompletedEv],
                by simp [notStartingEv, isStartingEv]⟩
          | none =>
              cases hl : env.autobuildLanguages with
              | none => exact ⟨[], _, _, _, _, rfl, rfl, rfl⟩
              | some outs => exact stageTail_autobuildLoop outs

theorem counts_of_stageTail (t : List Ev) (h : t = [] ∨ stageTail t) :
    startingCount (Ev.reportStarting :: t) = 1 ∧
      completedCount (Ev.reportStarting :: t) ≤ 1 := by
  rcases h with rfl | ⟨pre, s, c, f, d, rfl, h1, h2⟩
  · exact ⟨rfl, by decide⟩
  · have hs0 : pre.countP isStartingEv = 0 :=
      countP_zero_of_all_not _ _ (by simpa [notStartingEv] using h2)
    have hc0 : pre.countP isCompletedEv = 0 :=
      countP_zero_of_all_not _ _ (by simpa [notCompletedEv] using h1)
    constructor
    · simp [startingCount, List.countP_cons, List.countP_append, hs0,
        isStartingEv]
    · simp [completedCount, List.countP_cons, List.countP_append, hc0,
        isCompletedEv]

/-- C6: every invocation of each stage's `run` emits exactly one "starting"
report and at most one completed report, on every control-flow path. -/
theorem claim_c6_report_cardinality
    (envA : AnalyzeEnv) (envI : InitEnv) (envB : AutobuildEnv) :
    (startingCount (analyzeRun envA) = 1 ∧ completedCount (analyzeRun envA) ≤ 1) ∧
    (startingCount (initRun envI) = 1 ∧ completedCount (initRun envI) ≤ 1) ∧
    (startingCount (autobuildRun envB) = 1 ∧ completedCount (autobuildRun envB) ≤ 1) :=
  ⟨counts_of_stageTail _ (analyzeTail_cases envA),
   counts_of_stageTail _ (initTail_cases envI),
   counts_of_stageTail _ (autobuildTail_cases envB)⟩

theorem statusBad_getActionsStatus_err (e : Err) (f : Option String) :
    statusBad (getActionsStatus (some e) f) = true := by
  rcases e with ⟨u, m⟩
  cases u <;> rfl

theorem beq_false_of_bne_true {a b : Option String} (h : (a != b) = true) :
    (a == b) = false := by
  cases hx : a == b
  · rfl
  · rw [bne, hx] at h
    simp at h

theorem okTailB_consWork (n : String) (t : List Ev) (h : okTailB t) :
    okTailB (Ev.work n :: t) := by
  obtain ⟨pre, s, c, f, d, rfl, h1, h2, h3⟩ := h
  exact ⟨Ev.work n :: pre, s, c, f, d, rfl,
    by simp_all [notCompletedEv, isCompletedEv],
    fun hb => by simp [List.any_cons, isSetFailedEv, h2 hb],
    fun hg => by simp [List.any_cons, isSetFailedEv, h3 hg]⟩

theorem okTailB_analyzeCatch (env : AnalyzeEnv) (e : Err) (st : Option QueriesStats)
    (cp du : Bool) (hexp : (env.expectError != some "true") = true) :
    okTailB (analyzeCatch env e st cp du) := by
  unfold analyzeCatch
  rw [hexp]
  simp only [Bool.true_or, if_true]
  exact ⟨[Ev.setFailed e.msg], _, _, _, _, rfl,
    by simp [notCompletedEv, isCompletedEv],
    fun hb => by simp [isSetFailedEv],
    fun hg => by rw [statusBad_getActionsStatus_err] at hg; cases hg⟩

theorem okTailB_analyzeFinish (env : AnalyzeEnv) (rs : Option QueriesStats) (du : Bool)
    (hexp : (env.expectError != some "true") = true)
    (hrs : (rs.bind fun s => s.analyzeFailureLanguage) = none) :
    okTailB (analyzeFinish env rs du) := by
  unfold analyzeFinish
  rw [beq_false_of_bne_true hexp, hrs]
  simp only [Bool.false_eq_true, if_false, List.nil_append]
  refine ⟨[], _, _, _, _, rfl, rfl, fun hb => ?_, fun hg => rfl⟩
  simp [statusBad, getActionsStatus] at hb

theorem okTailB_analyzeWait (env : AnalyzeEnv) (rs : Option QueriesStats) (uh du : Bool)
    (hexp : (env.expectError != some "true") = true)
    (hrs : (rs.bind fun s => s.analyzeFailureLanguage) = none) :
    okTailB (analyzeWait env rs uh du) := by
  unfold analyzeWait
  split
  · cases h : env.waitErr with
    | some e =>
        simpa [h] using okTailB_consWork _ _ (okTailB_analyzeCatch env e none true du hexp)
    | none =>
        simpa [h] using okTailB_consWork _ _ (okTailB_analyzeFinish env rs du hexp hrs)
  · exact okTailB_analyzeFinish env rs du hexp hrs

theorem okTailB_analyzeTrap (env : AnalyzeEnv) (rs : Option QueriesStats) (uh : Bool)
    (hexp : (env.expectError != some "true") = true)
    (hrs : (rs.bind fun s => s.analyzeFailureLanguage) = none) :
    okTailB (analyzeTrap env rs uh) :=
  okTailB_consWork _ _ (okTailB_analyzeWait env rs uh _ hexp hrs)

theorem okTailB_analyzeUploadDatabases (env : AnalyzeEnv) (rs : Option QueriesStats)
    (uh : Bool) (hexp : (env.expectError != some "true") = true)
    (hrs : (rs.bind fun s => s.analyzeFailureLanguage) = none) :
    okTailB (analyzeUploadDatabases env rs uh) := by
  unfold analyzeUploadDatabases
  cases h : env.uploadDatabasesErr with
  | some e => exact okTailB_consWork _ _ (okTailB_analyzeCatch env e none true false hexp)
  | none => exact okTailB_consWork _ _ (okTailB_analyzeTrap env rs uh hexp hrs)

theorem okTailB_analyzeUpload (env : AnalyzeEnv) (rs : Option QueriesStats)
    (hexp : (env.expectError != some "true") = true)
    (hrs : (rs.bind fun s => s.analyzeFailureLanguage) = none) :
    okTailB (analyzeUpload env rs) := by
  unfold analyzeUpload
  split
  · cases h : env.uploadErr with
    | some e => exact okTailB_consWork _ _ (okTailB_analyzeCatch env e none true false hexp)
    | none => exact okTailB_consWork _ _ (okTailB_analyzeUploadDatabases env rs true hexp hrs)
  · exact okTailB_analyzeUploadDatabases env rs false hexp hrs

theorem okTailB_analyzeCleanup (env : AnalyzeEnv) (rs : Option QueriesStats)
    (hexp : (env.expectError != some "true") = true)
    (hrs : (rs.bind fun s => s.analyzeFailureLanguage) = none) :
    okTailB (analyzeCleanup env rs) := by
  unfold analyzeCleanup
  split
  · cases h : env.cleanupErr with
    | some e => exact okTailB_consWork _ _ (okTailB_analyzeCatch env e none true false hexp)
    | none => exact okTailB_consWork _ _ (okTailB_analyzeUpload env rs hexp hrs)
  · exact okTailB_analyzeUpload env rs hexp hrs

theorem okTailB_analyzeQueries (env : AnalyzeEnv)
    (hexp : (env.expectError != some "true") = true) :
    okTailB (analyzeQueries env) := by
  unfold analyzeQueries
  split
  · cases h : env.queriesResult with
    | ok okLanguages =>
        exact okTailB_consWork _ _
          (okTailB_analyzeCleanup env (some ⟨none, okLanguages⟩) hexp rfl)
    | analysisError stats m =>
        exact okTailB_consWork _ _
          (okTailB_analyzeCatch env ⟨false, m⟩ (some stats) true false hexp)
    | otherError e =>
        exact okTailB_consWork _ _ (okTailB_analyzeCatch env e none true false hexp)
  · exact okTailB_analyzeCleanup env none hexp rfl

theorem okTailB_analyzeFinalizeStep (env : AnalyzeEnv)
    (hexp : (env.expectError != some "true") = true) :
    okTailB (analyzeFinalizeStep env) := by
  unfold analyzeFinalizeStep
  cases h : env.finalizeErr with
  | some e => exact okTailB_consWork _ _ (okTailB_analyzeCatch env e none true false hexp)
  | none => exact okTailB_consWork _ _ (okTailB_analyzeQueries env hexp)

theorem okTailB_analyzeGoStep (env : AnalyzeEnv) (cfg : Config)
    (hexp : (env.expectError != some "true") = true) :
    okTailB (analyzeGoStep env cfg) := by
  unfold analyzeGoStep
  cases hg : runAutobuildIfLegacyGoWorkflow
      { languages := cfg.languages, didAutobuildGolang := env.didAutobuildGolang,
        goDbFinalized := env.goDbFinalized, goTrapDirExists := env.goTrapDirExists,
        goTrapDirFiles := env.goTrapDirFiles } with
  | false => simpa [hg] using okTailB_analyzeFinalizeStep env hexp
  | true =>
      cases h : env.goAutobuildErr with
      | some e =>
          simpa [hg, h] using
            okTailB_consWork _ _ (okTailB_analyzeCatch env e none true false hexp)
      | none => simpa [hg, h] using okTailB_consWork _ _ (okTailB_analyzeFinalizeStep env hexp)

theorem okTailB_analyzeTail (env : AnalyzeEnv)
    (hexp : (env.expectError != some "true") = true) :
    analyzeTail env = [] ∨ okTailB (analyzeTail env) := by
  unfold analyzeTail
  cases hd : env.startingDelivered with
  | false => left; simp
  | true =>
      right
      cases hc : env.config with
      | none =>
          simpa [hc] using okTailB_analyzeCatch env ⟨false, configMissingMsg⟩ none false false hexp
      | some cfg =>
          cases hb : hasBadExpectErrorInput env with
          | true =>
              simpa [hc, hb] using
                okTailB_analyzeCatch env ⟨true, expectErrorForkMsg⟩ none true false hexp
          | false => simpa [hc, hb] using okTailB_analyzeGoStep env cfg hexp

theorem okTailB_initTail (env : InitEnv) :
    initTail env = [] ∨ okTailB (initTail env) := by
  unfold initTail
  cases hd : env.startingDelivered with
  | false => left; simp
  | true =>
      right
      simp only [Bool.not_true, Bool.false_eq_true, if_false]
      cases hs : env.setupErr with
      | some e =>
          exact ⟨[Ev.work "initSetup", Ev.setFailed e.msg], _, _, _, _, rfl,
            by simp [notCompletedEv, isCompletedEv],
            fun hb => by simp [isSetFailedEv],
            fun hg => by
              rcases e with ⟨u, m⟩
              cases u <;> cases hg⟩
      | none =>
          cases hm : env.mainErr with
          | some e =>
              exact ⟨[Ev.work "initSetup", Ev.work "runInit", Ev.setFailed e.msg],
                _, _, _, _, rfl,
                by simp [notCompletedEv, isCompletedEv],
                fun hb => by simp [isSetFailedEv],
                fun hg => by rw [statusBad_getActionsStatus_err] at hg; cases hg⟩
          | none =>
              refine ⟨[Ev.work "initSetup", Ev.work "runInit"], _, _, _, _, rfl,
                by simp [notCompletedEv, isCompletedEv],
                fun hb => ?_, fun hg => by simp [isSetFailedEv]⟩
              simp [statusBad, getActionsStatus] at hb

theorem okTailB_autobuildLoop (outs : List (String × Option Err)) :
    okTailB (autobuildLoop outs) := by
  induction outs with
  | nil =>
      refine ⟨[], _, _, _, _, rfl, rfl, fun hb => ?_, fun hg => rfl⟩
      simp [statusBad, getActionsStatus] at hb
  | cons p rest ih =>
      obtain ⟨lang, oe⟩ := p
      cases oe with
      | none => exact okTailB_consWork _ _ ih
      | some e =>
          exact ⟨[Ev.work ("autobuild-" ++ lang), Ev.setFailed (autobuildFailText ++ e.msg)],
            _, _, _, _, rfl,
            by simp [notCompletedEv, isCompletedEv],
            fun hb => by simp [isSetFailedEv],
            fun hg => by rw [statusBad_getActionsStatus_err] at hg; cases hg⟩

theorem okTailB_autobuildTail (env : AutobuildEnv) :
    autobuildTail env = [] ∨ okTailB (autobuildTail env) := by
  unfold autobuildTail
  cases hd : env.startingDelivered with
  | false => left; simp
  | true =>
      right
      simp only [Bool.not_true, Bool.false_eq_true, if_false]
      cases hc : env.config with
      | none =>
          exact ⟨[Ev.setFailed (autobuildFailText ++ configMissingMsg)], _, _, _, _, rfl,
            by simp [notCompletedEv, isCompletedEv],
            fun hb => by simp [isSetFailedEv],
            fun hg => by rw [statusBad_getActionsStatus_err] at hg; cases hg⟩
      | some cfg =>
          cases hs : env.determineErr with
          | some e =>
              exact ⟨[Ev.setFailed (autobuildFailText ++ e.msg)], _, _, _, _, rfl,
                by simp [notCompletedEv, isCompletedEv],
                fun hb => by simp [isSetFailedEv],
                fun hg => by rw [statusBad_getActionsStatus_err] at hg; cases hg⟩
          | none =>
              cases hl : env.autobuildLanguages with
              | none =>
                  refine ⟨[], _, _, _, _, rfl, rfl, fun hb => ?_, fun hg => rfl⟩
                  simp [statusBad, getActionsStatus] at hb
              | some outs => exact okTailB_autobuildLoop outs

theorem completedStatusList_nil_of_all (pre : List Ev) (h : pre.all notCompletedEv = true) :
    completedStatusList pre = [] := by
  induction pre with
  | nil => rfl
  | cons a l ih =>
      simp only [List.all_cons, Bool.and_eq_true] at h
      cases a <;>
        simp_all [completedStatusList, List.filterMap_cons, notCompletedEv, isCompletedEv]

theorem exitCodeMatches_of_okTailB (t : List Ev) (h : t = [] ∨ okTailB t) :
    exitCodeMatches (Ev.reportStarting :: t) = true := by
  rcases h with rfl | ⟨pre, s, c, f, d, rfl, hall, hbad, hgood⟩
  · rfl
  · have h0 : completedStatusList pre = [] := completedStatusList_nil_of_all pre hall
    have hstat :
        completedStatusList (Ev.reportStarting :: (pre ++ [Ev.reportCompleted s c f d])) =
          [s] := by
      unfold completedStatusList at h0 ⊢
      simp [List.filterMap_cons, List.filterMap_append, h0]
    unfold exitCodeMatches
    rw [hstat]
    simp only [List.all_cons, List.all_nil, Bool.and_true]
    cases hb : statusBad s with
    | true =>
        have hpre : ∀ a ∈ pre, notCompletedEv a = true := List.all_eq_true.mp hall
        have ht :
            (Ev.reportStarting :: (pre ++ [Ev.reportCompleted s c f d])).takeWhile
              notCompletedEv = Ev.reportStarting :: pre := by
          rw [List.takeWhile_cons_of_pos (by simp [notCompletedEv, isCompletedEv]),
            List.takeWhile_append_of_pos hpre]
          simp [notCompletedEv, isCompletedEv]
        simp [ht, List.any_cons, hbad hb, isSetFailedEv]
    | false =>
        simp [List.any_cons, List.any_append, hgood hb, isSetFailedEv]

/-- C3 (amended): for every run of any of the three stages in which the
`expect-error` input of the Finalize+Query stage is not `"true"` (its normal
state: the input is an internal test facility), a terminal FAILED,
USER_ERROR or ABORTED status is preceded by `core.setFailed`, and a
SUCCEEDED terminal status comes with no `core.setFailed` call at all, on
every control-flow path; report delivery cannot disturb this because the
modelled sender never raises. -/
theorem claim_c3_exit_code_discipline :
    (∀ env : AnalyzeEnv, env.expectError ≠ some "true" →
      exitCodeMatches (analyzeRun env) = true) ∧
    (∀ env : InitEnv, exitCodeMatches (initRun env) = true) ∧
    (∀ env : AutobuildEnv, exitCodeMatches (autobuildRun env) = true) := by
  refine ⟨fun env h => ?_, fun env => ?_, fun env => ?_⟩
  · refine exitCodeMatches_of_okTailB _ (okTailB_analyzeTail env ?_)
    cases hx : env.expectError == some "true"
    · simp [bne, hx]
    · exact absurd (by simpa using hx) h
  · exact exitCodeMatches_of_okTailB _ (okTailB_initTail env)
  · exact exitCodeMatches_of_okTailB _ (okTailB_autobuildTail env)

theorem claim_c3_witness :
    exitCodeMatches (analyzeRun { startingDelivered := true, completedDelivered := true, config := some ⟨["javascript"]⟩, expectError := some "false", testMode := false, didAutobuildGolang := none, goDbFinalized := false, goTrapDirExists := false, goTrapDirFiles := [], goAutobuildErr := none, finalizeErr := some ⟨false, "finalize failed"⟩, skipQueries := false, queriesResult := QueriesResult.ok ["javascript"], cleanupLevel := none, cleanupErr := none, uploadAlways := true, uploadErr := none, uploadDatabasesErr := none, trapUploadFails := false, trapWouldUpload := true, waitForProcessingInput := true, waitErr := none }) = true :=
  claim_c3_exit_code_discipline.1 _ (by decide)

/-- C3 as stated is false on the code: with `expect-error` set to `"true"`
in test mode and a run that raises no error, `analyze-action.ts` line 329
calls `core.setFailed` although the completed report carries status
`success`, so a SUCCEEDED terminal state is marked failed. -/
theorem claim_c3_counterexample :
    completedStatusList (analyzeRun { startingDelivered := true, completedDelivered := true, config := some ⟨["javascript"]⟩, expectError := some "true", testMode := true, didAutobuildGolang := none, goDbFinalized := false, goTrapDirExists := false, goTrapDirFiles := [], goAutobuildErr := none, finalizeErr := none, skipQueries := false, queriesResult := QueriesResult.ok ["javascript"], cleanupLevel := none, cleanupErr := none, uploadAlways := true, uploadErr := none, uploadDatabasesErr := none, trapUploadFails := false, trapWouldUpload := true, waitForProcessingInput := true, waitErr := none }) = [Status.success] ∧
    (analyzeRun { startingDelivered := true, completedDelivered := true, config := some ⟨["javascript"]⟩, expectError := some "true", testMode := true, didAutobuildGolang := none, goDbFinalized := false, goTrapDirExists := false, goTrapDirFiles := [], goAutobuildErr := none, finalizeErr := none, skipQueries := false, queriesResult := QueriesResult.ok ["javascript"], cleanupLevel := none, cleanupErr := none, uploadAlways := true, uploadErr := none, uploadDatabasesErr := none, trapUploadFails := false, trapWouldUpload := true, waitForProcessingInput := true, waitErr := none }).any isSetFailedEv = true ∧
    exitCodeMatches (analyzeRun { startingDelivered := true, completedDelivered := true, config := some ⟨["javascript"]⟩, expectError := some "true", testMode := true, didAutobuildGolang := none, goDbFinalized := false, goTrapDirExists := false, goTrapDirFiles := [], goAutobuildErr := none, finalizeErr := none, skipQueries := false, queriesResult := QueriesResult.ok ["javascript"], cleanupLevel := none, cleanupErr := none, uploadAlways := true, uploadErr := none, uploadDatabasesErr := none, trapUploadFails := false, trapWouldUpload := true, waitForProcessingInput := true, waitErr := none }) = false := by
  refine ⟨?_, ?_, ?_⟩ <;> decide

theorem stripTrapFields_analyzeCatch (env : AnalyzeEnv) (e : Err) (st : Option QueriesStats)
    (cp : Bool) (d d' : Bool) :
    stripTrapFields (analyzeCatch env e st cp d) =
      stripTrapFields (analyzeCatch env e st cp d') := by
  unfold analyzeCatch stripTrapFields
  split <;> simp

theorem stripTrapFields_analyzeFinish (env : AnalyzeEnv) (rs : Option QueriesStats)
    (d d' : Bool) :
    stripTrapFields (analyzeFinish env rs d) = stripTrapFields (analyzeFinish env rs d') := by
  unfold analyzeFinish stripTrapFields
  split <;> simp

theorem stripTrapFields_analyzeWait (env : AnalyzeEnv) (rs : Option QueriesStats) (uh : Bool)
    (d d' : Bool) :
    stripTrapFields (analyzeWait env rs uh d) = stripTrapFields (analyzeWait env rs uh d') := by
  unfold analyzeWait
  split
  · cases h : env.waitErr with
    | some e =>
        simp only [stripTrapFields, List.map_cons]
        have hx := stripTrapFields_analyzeCatch env e none true d d'
        simp only [stripTrapFields] at hx
        rw [hx]
    | none =>
        simp only [stripTrapFields, List.map_cons]
        have hx := stripTrapFields_analyzeFinish env rs d d'
        simp only [stripTrapFields] at hx
        rw [hx]
  · exact stripTrapFields_analyzeFinish env rs d d'

theorem stripTrapFields_tail_invariant (env : AnalyzeEnv) (f1 w1 f2 w2 : Bool) :
    stripTrapFields (analyzeTail { env with trapUploadFails := f1, trapWouldUpload := w1 }) =
      stripTrapFields (analyzeTail { env with trapUploadFails := f2, trapWouldUpload := w2 }) := by
  obtain ⟨s, cd, cfg, ee, tm, dag, gdf, gte, gtf, gae, fe, sq, qr, cl, ce, ua, ue, ude, tf,
    tw, wfp, we⟩ := env
  simp only [analyzeTail, analyzeGoStep, analyzeFinalizeStep, analyzeQueries, analyzeCleanup,
    analyzeUpload, analyzeUploadDatabases, analyzeTrap, hasBadExpectErrorInput]
  repeat' split
  all_goals first
    | rfl
    | (simp only [stripTrapFields, List.map_append, List.map_cons, List.map_nil,
         List.nil_append, List.cons_append, List.cons.injEq, true_and]
       exact (stripTrapFields_analyzeWait _ _ _ _ _).trans rfl)

/-- C7: the TRAP-cache upload is fire-and-forget for the Finalize+Query
stage: a run in which `uploadTrapCaches` fails internally has exactly the
same trace as one in which the upload is skipped (same terminal status, same
`core.setFailed` calls, so the same exit code), and compared with any run it
differs at most in the TRAP-upload telemetry fields of the completed report. -/
theorem claim_c7_trap_upload_never_fails_stage (env : AnalyzeEnv) (b : Bool) :
    analyzeRun { env with trapUploadFails := true, trapWouldUpload := b } =
      analyzeRun { env with trapUploadFails := false, trapWouldUpload := false } ∧
    stripTrapFields (analyzeRun { env with trapUploadFails := true, trapWouldUpload := b }) =
      stripTrapFields (analyzeRun env) := by
  constructor
  · obtain ⟨s, cd, cfg, ee, tm, dag, gdf, gte, gtf, gae, fe, sq, qr, cl, ce, ua, ue, ude, tf,
      tw, wfp, we⟩ := env
    rfl
  · have hx := stripTrapFields_tail_invariant env true b env.trapUploadFails env.trapWouldUpload
    simp only [analyzeRun, stripTrapFields, List.map_cons] at hx ⊢
    rw [hx]

theorem optFalseBeqTrue : ((some "false" : Option String) == some "true") = false := by decide

theorem successTrace_consWork (n : String) (t : List Ev) (h : successTrace t) :
    successTrace (Ev.work n :: t) := by
  obtain ⟨h1, h2⟩ := h
  refine ⟨by simp [List.any_cons, isSetFailedEv, h1], ?_⟩
  simpa [completedStatusList, List.filterMap_cons] using h2

theorem successTrace_analyzeFinish (env : AnalyzeEnv) (rs : Option QueriesStats) (du : Bool)
    (hee : env.expectError = some "false")
    (hrs : (rs.bind fun s => s.analyzeFailureLanguage) = none) :
    successTrace (analyzeFinish env rs du) := by
  unfold analyzeFinish
  rw [hee, hrs]
  simp [successTrace, completedStatusList, isSetFailedEv, getActionsStatus, optFalseBeqTrue]

theorem successTrace_analyzeWait (env : AnalyzeEnv) (rs : Option QueriesStats) (uh du : Bool)
    (hee : env.expectError = some "false") (hwe : env.waitErr = none)
    (hrs : (rs.bind fun s => s.analyzeFailureLanguage) = none) :
    successTrace (analyzeWait env rs uh du) := by
  unfold analyzeWait
  split
  · rw [hwe]
    exact successTrace_consWork _ _ (successTrace_analyzeFinish env rs du hee hrs)
  · exact successTrace_analyzeFinish env rs du hee hrs

theorem successTrace_analyzeTrap (env : AnalyzeEnv) (rs : Option QueriesStats) (uh : Bool)
    (hee : env.expectError = some "false") (hwe : env.waitErr = none)
    (hrs : (rs.bind fun s => s.analyzeFailureLanguage) = none) :
    successTrace (analyzeTrap env rs uh) :=
  successTrace_consWork _ _ (successTrace_analyzeWait env rs uh _ hee hwe hrs)

theorem successTrace_analyzeUploadDatabases (env : AnalyzeEnv) (rs : Option QueriesStats)
    (uh : Bool) (hee : env.expectError = some "false") (hwe : env.waitErr = none)
    (hude : env.uploadDatabasesErr = none)
    (hrs : (rs.bind fun s => s.analyzeFailureLanguage) = none) :
    successTrace (analyzeUploadDatabases env rs uh) := by
  unfold analyzeUploadDatabases
  rw [hude]
  exact successTrace_consWork _ _ (successTrace_analyzeTrap env rs uh hee hwe hrs)

theorem successTrace_analyzeUpload (env : AnalyzeEnv) (rs : Option QueriesStats)
    (hee : env.expectError = some "false") (hwe : env.waitErr = none)
    (hude : env.uploadDatabasesErr = none) (hue : env.uploadErr = none)
    (hrs : (rs.bind fun s => s.analyzeFailureLanguage) = none) :
    successTrace (analyzeUpload env rs) := by
  unfold analyzeUpload
  split
  · rw [hue]
    exact successTrace_consWork _ _
      (successTrace_analyzeUploadDatabases env rs true hee hwe hude hrs)
  · exact successTrace_analyzeUploadDatabases env rs false hee hwe hude hrs

theorem successTrace_analyzeCleanup (env : AnalyzeEnv) (rs : Option QueriesStats)
    (hee : env.expectError = some "false") (hwe : env.waitErr = none)
    (hude : env.uploadDatabasesErr = none) (hue : env.uploadErr = none)
    (hce : env.cleanupErr = none)
    (hrs : (rs.bind fun s => s.analyzeFailureLanguage) = none) :
    successTrace (analyzeCleanup env rs) := by
  unfold analyzeCleanup
  split
  · rw [hce]
    exact successTrace_consWork _ _ (successTrace_analyzeUpload env rs hee hwe hude hue hrs)
  · exact successTrace_analyzeUpload env rs hee hwe hude hue hrs

theorem successTrace_analyzeQueries (env : AnalyzeEnv) (okLangs : List String)
    (hee : env.expectError = some "false") (hwe : env.waitErr = none)
    (hude : env.uploadDatabasesErr = none) (hue : env.uploadErr = none)
    (hce : env.cleanupErr = none) (hqr : env.queriesResult = QueriesResult.ok okLangs) :
    successTrace (analyzeQueries env) := by
  unfold analyzeQueries
  split
  · rw [hqr]
    exact successTrace_consWork _ _
      (successTrace_analyzeCleanup env (some ⟨none, okLangs⟩) hee hwe hude hue hce rfl)
  · exact successTrace_analyzeCleanup env none hee hwe hude hue hce rfl

theorem successTrace_analyzeFinalizeStep (env : AnalyzeEnv) (okLangs : List String)
    (hee : env.expectError = some "false") (hwe : env.waitErr = none)
    (hude : env.uploadDatabasesErr = none) (hue : env.uploadErr = none)
    (hce : env.cleanupErr = none) (hqr : env.queriesResult = QueriesResult.ok okLangs)
    (hfe : env.finalizeErr = none) :
    successTrace (analyzeFinalizeStep env) := by
  unfold analyzeFinalizeStep
  rw [hfe]
  exact successTrace_consWork _ _
    (successTrace_analyzeQueries env okLangs hee hwe hude hue hce hqr)

theorem successTrace_analyzeGoStep (env : AnalyzeEnv) (cfg : Config) (okLangs : List String)
    (hee : env.expectError = some "false") (hwe : env.waitErr = none)
    (hude : env.uploadDatabasesErr = none) (hue : env.uploadErr = none)
    (hce : env.cleanupErr = none) (hqr : env.queriesResult = QueriesResult.ok okLangs)
    (hfe : env.finalizeErr = none) (hge : env.goAutobuildErr = none) :
    successTrace (analyzeGoStep env cfg) := by
  unfold analyzeGoStep
  cases hg : runAutobuildIfLegacyGoWorkflow
      { languages := cfg.languages, didAutobuildGolang := env.didAutobuildGolang,
        goDbFinalized := env.goDbFinalized, goTrapDirExists := env.goTrapDirExists,
        goTrapDirFiles := env.goTrapDirFiles } with
  | false =>
      simpa [hg] using
        successTrace_analyzeFinalizeStep env okLangs hee hwe hude hue hce hqr hfe
  | true =>
      simp only [hg, if_true, hge]
      simpa using successTrace_consWork _ _
        (successTrace_analyzeFinalizeStep env okLangs hee hwe hude hue hce hqr hfe)

theorem successTrace_consStarting (t : List Ev) (h : successTrace t) :
    successTrace (Ev.reportStarting :: t) := by
  obtain ⟨h1, h2⟩ := h
  refine ⟨by simp [List.any_cons, isSetFailedEv, h1], ?_⟩
  simpa [completedStatusList, List.filterMap_cons] using h2

theorem successTrace_autobuildLoop_ok (langs : List String) :
    successTrace (autobuildLoop (langs.map fun l => (l, none))) := by
  induction langs with
  | nil => exact ⟨rfl, rfl⟩
  | cons l rest ih => exact successTrace_consWork _ _ ih

/-- C5: stage outcome never depends on completed-report delivery: every
stage trace is invariant under the delivery outcome of completed reports
(the code discards the sender's return value and the modelled sender never
raises), and a run whose stage work all succeeds is never marked failed and
reports `success` — so it exits 0 even if the sink rejects every completed
report. -/
theorem claim_c5_telemetry_best_effort :
    (∀ (env : AnalyzeEnv) (b : Bool),
      analyzeRun { env with completedDelivered := b } = analyzeRun env) ∧
    (∀ (env : InitEnv) (b : Bool),
      initRun { env with completedDelivered := b } = initRun env) ∧
    (∀ (env : AutobuildEnv) (b : Bool),
      autobuildRun { env with completedDelivered := b } = autobuildRun env) ∧
    (∀ (env : AnalyzeEnv) (cfg : Config) (okLangs : List String),
      env.startingDelivered = true → env.config = some cfg →
      env.expectError = some "false" → env.goAutobuildErr = none →
      env.finalizeErr = none → env.queriesResult = QueriesResult.ok okLangs →
      env.cleanupErr = none → env.uploadErr = none → env.uploadDatabasesErr = none →
      env.waitErr = none → successTrace (analyzeRun env)) ∧
    (∀ env : InitEnv,
      env.startingDelivered = true → env.setupErr = none → env.mainErr = none →
      successTrace (initRun env)) ∧
    (∀ (env : AutobuildEnv) (cfg : Config) (langs : List String),
      env.startingDelivered = true → env.config = some cfg → env.determineErr = none →
      env.autobuildLanguages = some (langs.map fun l => (l, none)) →
      successTrace (autobuildRun env)) := by
  refine ⟨fun env b => by cases env; rfl, fun env b => by cases env; rfl,
    fun env b => by cases env; rfl, ?_, ?_, ?_⟩
  · intro env cfg okLangs hsd hc hee hge hfe hqr hce hue hude hwe
    refine successTrace_consStarting _ ?_
    unfold analyzeTail
    rw [hsd, hc]
    have hb : hasBadExpectErrorInput env = false := by
      simp [hasBadExpectErrorInput, hee]
    rw [hb]
    simpa using successTrace_analyzeGoStep env cfg okLangs hee hwe hude hue hce hqr hfe hge
  · intro env hsd hs hm
    refine successTrace_consStarting _ ?_
    unfold initTail
    rw [hsd, hs, hm]
    refine successTrace_consWork _ _ (successTrace_consWork _ _ ⟨rfl, rfl⟩)
  · intro env cfg langs hsd hc hde hal
    refine successTrace_consStarting _ ?_
    unfold autobuildTail
    rw [hsd, hc, hde, hal]
    simpa using successTrace_autobuildLoop_ok langs

theorem claim_c5_witness :
    successTrace (analyzeRun { startingDelivered := true, completedDelivered := false, config := some ⟨["javascript"]⟩, expectError := some "false", testMode := false, didAutobuildGolang := none, goDbFinalized := false, goTrapDirExists := false, goTrapDirFiles := [], goAutobuildErr := none, finalizeErr := none, skipQueries := false, queriesResult := QueriesResult.ok ["javascript"], cleanupLevel := none, cleanupErr := none, uploadAlways := true, uploadErr := none, uploadDatabasesErr := none, trapUploadFails := false, trapWouldUpload := true, waitForProcessingInput := true, waitErr := none }) ∧
    successTrace (initRun { startingDelivered := true, completedDelivered := false, setupErr := none, mainErr := none }) ∧
    successTrace (autobuildRun { startingDelivered := true, completedDelivered := false, config := some ⟨["go"]⟩, determineErr := none, autobuildLanguages := some [("go", none)] }) :=
  ⟨claim_c5_telemetry_best_effort.2.2.2.1 _ ⟨["javascript"]⟩ ["javascript"]
      rfl rfl rfl rfl rfl rfl rfl rfl rfl rfl,
   claim_c5_telemetry_best_effort.2.2.2.2.1 _ rfl rfl rfl,
   claim_c5_telemetry_best_effort.2.2.2.2.2 _ ⟨["go"]⟩ ["go"] rfl rfl rfl rfl⟩

/-- C9: a non-"false" `expect-error` input outside test mode makes
Finalize+Query raise a `UserError` before any stage work: no work step runs
at all (in particular neither database finalization nor queries), and once
past the starting report and config load the completed report carries the
`user-error` status with the fixed internal-use message.  Conversely, with
`expect-error` `"true"` in test mode, an error raised by a work step does
not mark the process failed, yet the completed report still carries that
error as its cause. -/
theorem claim_c9_expect_error_gate :
    (∀ env : AnalyzeEnv, hasBadExpectErrorInput env = true →
      workNames (analyzeRun env) = [] ∧
      (env.startingDelivered = true → ∀ cfg, env.config = some cfg →
        completedReports (analyzeRun env) =
          [(Status.userError, some expectErrorForkMsg, none, false)])) ∧
    (∀ (env : AnalyzeEnv) (cfg : Config) (e : Err),
      env.startingDelivered = true → env.config = some cfg →
      env.expectError = some "true" → env.testMode = true →
      env.goAutobuildErr = none → env.finalizeErr = some e →
      (analyzeRun env).any isSetFailedEv = false ∧
      completedCauses (analyzeRun env) = [some e.msg]) := by
  constructor
  · intro env h
    constructor
    · unfold analyzeRun analyzeTail workNames
      cases hd : env.startingDelivered with
      | false => simp
      | true =>
          cases hc : env.config with
          | none => simp [analyzeCatch]
          | some cfg => simp [h, analyzeCatch]
    · intro hsd cfg hc
      simp [analyzeRun, analyzeTail, hsd, hc, h, analyzeCatch, completedReports,
        getActionsStatus]
  · intro env cfg e hsd hc hee htm hge hfe
    have hb : hasBadExpectErrorInput env = false := by
      simp [hasBadExpectErrorInput, htm]
    cases hgr : runAutobuildIfLegacyGoWorkflow
        { languages := cfg.languages, didAutobuildGolang := env.didAutobuildGolang,
          goDbFinalized := env.goDbFinalized, goTrapDirExists := env.goTrapDirExists,
          goTrapDirFiles := env.goTrapDirFiles } <;>
      constructor <;>
        simp [analyzeRun, analyzeTail, hsd, hc, hb, analyzeGoStep, hgr, hge,
          analyzeFinalizeStep, hfe, analyzeCatch, hee, completedCauses, isSetFailedEv,
          List.filterMap_cons, List.any_cons]

theorem claim_c9_witness :
    (workNames (analyzeRun { startingDelivered := true, completedDelivered := true, config := some ⟨["javascript"]⟩, expectError := none, testMode := false, didAutobuildGolang := none, goDbFinalized := false, goTrapDirExists := false, goTrapDirFiles := [], goAutobuildErr := none, finalizeErr := none, skipQueries := false, queriesResult := QueriesResult.ok ["javascript"], cleanupLevel := none, cleanupErr := none, uploadAlways := true, uploadErr := none, uploadDatabasesErr := none, trapUploadFails := false, trapWouldUpload := true, waitForProcessingInput := true, waitErr := none }) = [] ∧
      True) ∧
    ((analyzeRun { startingDelivered := true, completedDelivered := true, config := some ⟨["go"]⟩, expectError := some "true", testMode := true, didAutobuildGolang := some "true", goDbFinalized := false, goTrapDirExists := false, goTrapDirFiles := [], goAutobuildErr := none, finalizeErr := some ⟨false, "database finalization failed"⟩, skipQueries := false, queriesResult := QueriesResult.ok [], cleanupLevel := none, cleanupErr := none, uploadAlways := false, uploadErr := none, uploadDatabasesErr := none, trapUploadFails := false, trapWouldUpload := false, waitForProcessingInput := false, waitErr := none }).any isSetFailedEv = false ∧
      completedCauses (analyzeRun { startingDelivered := true, completedDelivered := true, config := some ⟨["go"]⟩, expectError := some "true", testMode := true, didAutobuildGolang := some "true", goDbFinalized := false, goTrapDirExists := false, goTrapDirFiles := [], goAutobuildErr := none, finalizeErr := some ⟨false, "database finalization failed"⟩, skipQueries := false, queriesResult := QueriesResult.ok [], cleanupLevel := none, cleanupErr := none, uploadAlways := false, uploadErr := none, uploadDatabasesErr := none, trapUploadFails := false, trapWouldUpload := false, waitForProcessingInput := false, waitErr := none }) = [some "database finalization failed"]) :=
  ⟨⟨(claim_c9_expect_error_gate.1 _ (by decide)).1, trivial⟩,
   claim_c9_expect_error_gate.2 _ ⟨["go"]⟩ ⟨false, "database finalization failed"⟩
     rfl rfl rfl rfl rfl rfl⟩

theorem optFalseBneTrue : ((some "false" : Option String) != some "true") = true := by decide

theorem runQueriesLoop_processes_all (outs : List (String × Bool)) (acc : QueriesStats) :
    (runQueriesLoop outs acc).2 = outs.map Prod.fst := by
  induction outs generalizing acc with
  | nil => rfl
  | cons p rest ih =>
      obtain ⟨l, ok⟩ := p
      simp [runQueriesLoop, ih]

theorem runQueriesLoop_failure_isSome (outs : List (String × Bool)) (acc : QueriesStats)
    (h : acc.analyzeFailureLanguage.isSome = true ∨ ∃ l, (l, false) ∈ outs) :
    ((runQueriesLoop outs acc).1.analyzeFailureLanguage).isSome = true := by
  induction outs generalizing acc with
  | nil =>
      rcases h with h | ⟨l, hl⟩
      · exact h
      · cases hl
  | cons p rest ih =>
      obtain ⟨l, ok⟩ := p
      rcases h with h | ⟨l0, hl0⟩
      · cases ok with
        | true =>
            exact ih _ (Or.inl (by simpa using h))
        | false =>
            refine ih _ (Or.inl ?_)
            cases hx : acc.analyzeFailureLanguage <;> simp [runQueriesLoop, hx]
      · rcases List.mem_cons.mp hl0 with heq | hrest
        · injection heq with h1 h2
          subst h2
          refine ih _ (Or.inl ?_)
          cases hx : acc.analyzeFailureLanguage <;> simp [runQueriesLoop, hx]
        · exact ih _ (Or.inr ⟨l0, hrest⟩)

theorem runQueriesModelled_fails (outs : List (String × Bool))
    (h : ∃ l, (l, false) ∈ outs) :
    ∃ stats, runQueriesModelled outs = QueriesResult.analysisError stats analysisErrText ∧
      stats.analyzeFailureLanguage.isSome = true := by
  have hx := runQueriesLoop_failure_isSome outs ⟨none, []⟩ (Or.inr h)
  unfold runQueriesModelled
  cases hy : (runQueriesLoop outs ⟨none, []⟩).1.analyzeFailureLanguage with
  | none => rw [hy] at hx; cases hx
  | some l0 =>
      refine ⟨(runQueriesLoop outs ⟨none, []⟩).1, ?_, by rw [hy]; rfl⟩
      simp [hy]

/-- C4: per-language isolation in Finalize+Query.  When one selected
language fails (surfaced as a `CodeQLAnalysisError` carrying the
per-language statistics), the query loop still processes every remaining
language, the completed report records the failing language, and the stage's
overall status is `failure`. -/
theorem claim_c4_per_language_isolation :
    ∀ (env : AnalyzeEnv) (cfg : Config) (outs : List (String × Bool)) (l : String),
      env.startingDelivered = true → env.config = some cfg →
      env.expectError = some "false" → env.goAutobuildErr = none →
      env.finalizeErr = none → env.skipQueries = false →
      env.queriesResult = runQueriesModelled outs → (l, false) ∈ outs →
      runQueriesProcessed outs = outs.map Prod.fst ∧
      (∃ failLang tf, completedReports (analyzeRun env) =
        [(Status.failure, some analysisErrText, some failLang, tf)]) := by
  intro env cfg outs l hsd hc hee hge hfe hsq hqr hmem
  have hb : hasBadExpectErrorInput env = false := by simp [hasBadExpectErrorInput, hee]
  refine ⟨runQueriesLoop_processes_all outs _, ?_⟩
  obtain ⟨stats, heq, hsome⟩ := runQueriesModelled_fails outs ⟨l, hmem⟩
  obtain ⟨fl, hfl⟩ := Option.isSome_iff_exists.mp hsome
  refine ⟨fl, false, ?_⟩
  cases hgr : runAutobuildIfLegacyGoWorkflow
      { languages := cfg.languages, didAutobuildGolang := env.didAutobuildGolang,
        goDbFinalized := env.goDbFinalized, goTrapDirExists := env.goTrapDirExists,
        goTrapDirFiles := env.goTrapDirFiles } <;>
    simp [analyzeRun, analyzeTail, hsd, hc, hb, analyzeGoStep, hgr, hge,
      analyzeFinalizeStep, hfe, analyzeQueries, hsq, hqr, heq, analyzeCatch, hee,
      completedReports, getActionsStatus, List.filterMap_cons, hfl, optFalseBneTrue]

theorem claim_c4_witness :
    runQueriesProcessed [("go", true), ("javascript", false), ("python", true)] =
      [("go", true), ("javascript", false), ("python", true)].map Prod.fst ∧
    (∃ failLang tf, completedReports (analyzeRun { startingDelivered := true, completedDelivered := true, config := some ⟨["go", "javascript", "python"]⟩, expectError := some "false", testMode := false, didAutobuildGolang := some "true", goDbFinalized := false, goTrapDirExists := false, goTrapDirFiles := [], goAutobuildErr := none, finalizeErr := none, skipQueries := false, queriesResult := runQueriesModelled [("go", true), ("javascript", false), ("python", true)], cleanupLevel := none, cleanupErr := none, uploadAlways := false, uploadErr := none, uploadDatabasesErr := none, trapUploadFails := false, trapWouldUpload := false, waitForProcessingInput := false, waitErr := none }) =
        [(Status.failure, some analysisErrText, some failLang, tf)]) :=
  claim_c4_per_language_isolation _ ⟨["go", "javascript", "python"]⟩
    [("go", true), ("javascript", false), ("python", true)] "javascript"
    rfl rfl rfl rfl rfl rfl rfl (by decide)
